import Mathlib

/-!
Verification of the METAR monitor's alert routing and collector
classification logic, shallowly embedded from the Python sources
(`src/router/lambda_function.py` and `src/collector/lambda_function.py`).

Pure functions become Lean functions; the DynamoDB tables become
association lists carried in an explicit environment; the SNS publish
(which can raise) is modelled by a boolean `publishOk` in the
environment, with a raised exception represented as `Except.error ()`.
-/

namespace MetarMonitor

/-- A station configuration record, as read by the Router from the
stations table (`get_station`). Field names follow the Python item. -/
structure Station where
  alerts_enabled : Bool
  notify_on : String
  owner_id : String
  cooldown_minutes : Int
  deriving Repr, DecidableEq

/-- An owner configuration record (`get_owner`). -/
structure Owner where
  alerts_enabled : Bool
  topic_arn : String
  deriving Repr, DecidableEq

/-- A cooldown marker item in the alert-state table. -/
structure CooldownMarker where
  last_notified_epoch : Int
  cooldown_minutes : Int
  deriving Repr, DecidableEq

/-- The `detail` payload of an alert-candidate event. The last four
fields are the denormalized policy snapshot written by the Collector
(`station_alert_events`); the Router never reads them. -/
structure EventDetail where
  station_id : String
  status : String
  checked_at_utc : String
  source_url : String
  error_message : String
  owner_id : String
  notify_on : String
  cooldown_minutes : Int
  alerts_enabled : Bool
  deriving Repr, DecidableEq

/-- The JSON record returned by the Router's `lambda_handler`.
An `Option` field is `none` when the Python dict omits the key. -/
structure RouterResult where
  ok : Bool
  notified : Option Bool := none
  station_id : Option String := none
  owner_id : Option String := none
  skipped : Option String := none
  deriving Repr, DecidableEq

/-- The SNS publication performed by `publish_owner_topic`. -/
structure Published where
  topic_arn : String
  subject : String
  message : String
  attr_station_id : String
  attr_owner_id : String
  attr_status : String
  deriving Repr, DecidableEq

/-- Python's `str.upper()` (character-wise, as for the ASCII ids the
system handles). -/
def strUpper (s : String) : String := ⟨s.data.map Char.toUpper⟩

/-- Python's `str.lower()` (character-wise). -/
def strLower (s : String) : String := ⟨s.data.map Char.toLower⟩

/-- Python's `s[:n]` slicing on a string. -/
def strTake (s : String) (n : Nat) : String := ⟨s.data.take n⟩

/-- Python's `str.strip()`: drop whitespace from both ends. -/
def strTrim (s : String) : String :=
  ⟨((s.data.dropWhile Char.isWhitespace).reverse.dropWhile Char.isWhitespace).reverse⟩

/-- Association-list lookup, modelling a DynamoDB point `get_item`. -/
def alistLookup {κ β : Type} [DecidableEq κ] (l : List (κ × β)) (k : κ) : Option β :=
  match l with
  | [] => none
  | p :: rest => if p.1 = k then some p.2 else alistLookup rest k

/-- The Router's environment: the three tables, the clock
(`now_epoch()`), and whether the SNS publish would succeed. -/
structure RouterEnv where
  stations : List (String × Station)
  owners : List (String × Owner)
  cooldowns : List ((String × String) × CooldownMarker)
  now : Int
  publishOk : Bool

instance : DecidableEq (Except Unit RouterResult) := fun a b =>
  match a, b with
  | .ok x, .ok y =>
      if h : x = y then isTrue (by rw [h])
      else isFalse (fun hc => by cases hc; exact h rfl)
  | .error x, .error y => isTrue (by cases x; cases y; rfl)
  | .ok _, .error _ => isFalse (fun hc => Except.noConfusion hc)
  | .error _, .ok _ => isFalse (fun hc => Except.noConfusion hc)

/-- Everything observable about one Router invocation: the returned
value (or propagated exception), the final state of the cooldown
table, and the notification published, if any. -/
structure RouterOutput where
  result : Except Unit RouterResult
  cooldowns : List ((String × String) × CooldownMarker)
  published : Option Published
  deriving DecidableEq

/-- Function `parse_notify_on` from the router: `(value or "both").lower()`,
then default to `"both"` unless the result is a recognized value. -/
def parse_notify_on (value : String) : String :=
  let v := strLower (if value = "" then "both" else value)
  if v = "error" ∨ v = "empty" ∨ v = "both" then v else "both"

/-- Function `should_notify` from the router. -/
def should_notify (status notify_on : String) : Bool :=
  if status = "error" ∨ status = "empty" then
    if notify_on = "both" then true else decide (status = notify_on)
  else false

/-- Function `in_cooldown` from the router: read the marker for
`(station_id, alert_type)` and compare against the station's current
`cooldown_minutes`, ignoring the `cooldown_minutes` stored in the
marker. -/
def in_cooldown (cooldowns : List ((String × String) × CooldownMarker)) (now : Int)
    (station_id alert_type : String) (cooldown_minutes : Int) : Bool :=
  match alistLookup cooldowns (station_id, alert_type) with
  | none => false
  | some item => decide (now - item.last_notified_epoch < cooldown_minutes * 60)

/-- Function `update_cooldown` from the router: `put_item` overwrites the single
item keyed by `(station_id, alert_type)`. -/
def update_cooldown (cooldowns : List ((String × String) × CooldownMarker)) (now : Int)
    (station_id alert_type : String) (cooldown_minutes : Int) :
    List ((String × String) × CooldownMarker) :=
  ((station_id, alert_type),
    { last_notified_epoch := now, cooldown_minutes := cooldown_minutes }) ::
    cooldowns.filter (fun p => p.1 ≠ (station_id, alert_type))

/-- The body published by `publish_owner_topic` via the message built in
`lambda_handler`. -/
def routerMessage (station_id status checked_at source_url error_message : String) : String :=
  "Station: " ++ station_id ++ "\n" ++
  "Status: " ++ status ++ "\n" ++
  "Checked At UTC: " ++ checked_at ++ "\n" ++
  "Source URL: " ++ source_url ++ "\n" ++
  "Error: " ++ (if error_message = "" then "N/A" else error_message) ++ "\n"

/-- The Router's `lambda_handler` (the alert decision engine
`decide_and_route`), embedded from `src/router/lambda_function.py`
lines 81-141. A skip returns the dict with only `ok` and `skipped`
set; a raised publish exception is `Except.error ()` and leaves the
cooldown table untouched. -/
def lambda_handler (env : RouterEnv) (detail : EventDetail) : RouterOutput :=
  let station_id := strUpper detail.station_id
  let status := strLower detail.status
  if station_id = "" ∨ (status ≠ "error" ∧ status ≠ "empty") then
    ⟨.ok { ok := true, skipped := some "invalid-event" }, env.cooldowns, none⟩
  else
    match alistLookup env.stations station_id with
    | none => ⟨.ok { ok := true, skipped := some "station-not-found" }, env.cooldowns, none⟩
    | some station =>
      if station.alerts_enabled = false then
        ⟨.ok { ok := true, skipped := some "station-alerts-disabled" }, env.cooldowns, none⟩
      else if should_notify status (parse_notify_on station.notify_on) = false then
        ⟨.ok { ok := true, skipped := some "notify-policy" }, env.cooldowns, none⟩
      else
        let owner_id := strTrim station.owner_id
        if owner_id = "" then
          ⟨.ok { ok := true, skipped := some "no-owner" }, env.cooldowns, none⟩
        else
          match alistLookup env.owners owner_id with
          | none => ⟨.ok { ok := true, skipped := some "owner-not-found" }, env.cooldowns, none⟩
          | some owner =>
            if owner.alerts_enabled = false then
              ⟨.ok { ok := true, skipped := some "owner-alerts-disabled" }, env.cooldowns, none⟩
            else if owner.topic_arn = "" then
              ⟨.ok { ok := true, skipped := some "no-owner-topic" }, env.cooldowns, none⟩
            else if in_cooldown env.cooldowns env.now station_id status
                station.cooldown_minutes then
              ⟨.ok { ok := true, skipped := some "cooldown" }, env.cooldowns, none⟩
            else if env.publishOk then
              ⟨.ok { ok := true, notified := some true, station_id := some station_id,
                     owner_id := some owner_id },
               update_cooldown env.cooldowns env.now station_id status
                 station.cooldown_minutes,
               some { topic_arn := owner.topic_arn,
                      subject := strTake ("METAR " ++ strUpper status ++ " - " ++ station_id) 100,
                      message := routerMessage station_id status detail.checked_at_utc
                        detail.source_url detail.error_message,
                      attr_station_id := station_id,
                      attr_owner_id := owner_id,
                      attr_status := status }⟩
            else
              ⟨.error (), env.cooldowns, none⟩

/-- A station config as built by the Collector's `get_station_configs`. -/
structure StationCfg where
  station_id : String
  owner_id : String
  notify_on : String
  cooldown_minutes : Int
  alerts_enabled : Bool
  deriving Repr, DecidableEq

/-- Function `station_alert_events` from the Collector: one payload per config
whose status (looked up in `status_by_station`, default `"empty"`) is
not `"ok"`. -/
def station_alert_events (station_configs : List StationCfg)
    (checked_at source_url : String) (status_by_station : List (String × String))
    (error_message : String) : List EventDetail :=
  station_configs.filterMap (fun cfg =>
    let status := (alistLookup status_by_station cfg.station_id).getD "empty"
    if status = "ok" then none
    else some { checked_at_utc := checked_at, station_id := cfg.station_id,
                status := status, source_url := source_url,
                error_message := error_message, owner_id := cfg.owner_id,
                notify_on := cfg.notify_on,
                cooldown_minutes := cfg.cooldown_minutes,
                alerts_enabled := cfg.alerts_enabled })

/-- The alert-candidate events the Collector's `lambda_handler`
publishes, as a function of the fetch-and-parse outcome. `fetched` is
`.error err` when `fetch_xml`/`parse_metar_xml` raised, else the list
of station ids of the parsed METARs. Embedded from
`src/collector/lambda_function.py` lines 247-316. -/
def collector_published_events (station_configs : List StationCfg)
    (alert_on_empty : Bool) (checked_at source_url : String)
    (fetched : Except String (List String)) : List EventDetail :=
  let station_ids := station_configs.map (fun c => c.station_id)
  match fetched with
  | .error err =>
      station_alert_events station_configs checked_at source_url
        (station_ids.map (fun sid => (sid, "error"))) err
  | .ok metarSids =>
      if metarSids = [] then
        if alert_on_empty then
          station_alert_events station_configs checked_at source_url
            (station_ids.map (fun sid => (sid, "empty"))) ""
        else []
      else
        if alert_on_empty then
          station_alert_events station_configs checked_at source_url
            (station_ids.map (fun sid =>
              (sid, if metarSids.contains sid then "ok" else "empty"))) ""
        else []

/-- The success record `{"ok": True, "notified": True, "station_id": ...,
"owner_id": ...}` returned after a dispatch. -/
def notifiedResult (sid oid : String) : RouterResult :=
  { ok := true, notified := some true, station_id := some sid, owner_id := some oid }

/-- The fixed set of skip reason codes of the Router's result contract. -/
def skipReasons : List String :=
  ["invalid-event", "station-not-found", "station-alerts-disabled", "notify-policy",
   "no-owner", "owner-not-found", "owner-alerts-disabled", "no-owner-topic", "cooldown"]

/-! ### Concrete fixtures used by the witnesses -/

/-- An enabled station: `notify_on = "both"`, owner `own1`, 60-minute
cooldown. -/
def stOn : Station := ⟨true, "both", "own1", 60⟩

/-- The same station with the station-level kill switch thrown. -/
def stOff : Station := ⟨false, "both", "own1", 60⟩

/-- An enabled owner with a topic. -/
def ownOn : Owner := ⟨true, "arn:topic"⟩

/-- A lower-case `error` event for station `kjwy`, empty snapshot. -/
def evErr : EventDetail := ⟨"kjwy", "error", "2026-02-20T10:00:00Z", "http://u", "boom", "", "both", 60, true⟩

/-- The alert-candidate payload the Collector emits for a station
classified `error` with the shared batch error message. -/
def errorEvent (checked_at source_url err : String) (cfg : StationCfg) : EventDetail :=
  { checked_at_utc := checked_at, station_id := cfg.station_id, status := "error",
    source_url := source_url, error_message := err, owner_id := cfg.owner_id,
    notify_on := cfg.notify_on, cooldown_minutes := cfg.cooldown_minutes,
    alerts_enabled := cfg.alerts_enabled }

/-! ### Theorems about the Router decision pipeline -/

/-- C7: an event whose `station_id` is empty or whose normalized status
is not in `{error, empty}` (in particular status `ok`) yields
`skipped("invalid-event")`, with the cooldown table untouched, nothing
published, and the same fixed outcome for every state of the config and
cooldown stores (no reads beyond validation). -/
theorem invalid_event_short_circuits (env : RouterEnv) (detail : EventDetail)
    (h : detail.station_id = "" ∨
      (strLower detail.status ≠ "error" ∧ strLower detail.status ≠ "empty")) :
    lambda_handler env detail =
      ⟨.ok { ok := true, skipped := some "invalid-event" }, env.cooldowns, none⟩ := by
  unfold lambda_handler
  rcases h with h | h
  · rw [if_pos (Or.inl (by rw [h]; rfl))]
  · rw [if_pos (Or.inr h)]

/-- Witness for `invalid_event_short_circuits`: a concrete `ok`-status
event is skipped as invalid. -/
theorem invalid_event_short_circuits_witness :
    lambda_handler ⟨[], [], [], 0, true⟩ { evErr with status := "ok" } =
      ⟨.ok { ok := true, skipped := some "invalid-event" }, [], none⟩ :=
  invalid_event_short_circuits _ _ (Or.inr (by decide))

/-- C5: a valid event whose resolved station has `alerts_enabled = false`
yields `skipped("station-alerts-disabled")`, with a fixed outcome that is
independent of the owner table and cooldown table (no owner lookup or
cooldown read is observable). -/
theorem station_kill_switch (env : RouterEnv) (detail : EventDetail) (station : Station)
    (h1 : strUpper detail.station_id ≠ "")
    (h2 : strLower detail.status = "error" ∨ strLower detail.status = "empty")
    (h3 : alistLookup env.stations (strUpper detail.station_id) = some station)
    (h4 : station.alerts_enabled = false) :
    lambda_handler env detail =
      ⟨.ok { ok := true, skipped := some "station-alerts-disabled" }, env.cooldowns, none⟩ := by
  unfold lambda_handler
  rcases h2 with h2 | h2 <;>
    simp only [h2, h3, h1, h4, ne_eq, String.reduceEq, not_false_eq_true, and_true, and_false,
      false_and, true_and, or_false, false_or, or_self, if_false, ite_false, if_neg,
      not_true_eq_false, ite_true, if_pos, reduceIte]

/-- Witness for `station_kill_switch`: a disabled station is skipped even
though its owner is enabled with a topic. -/
theorem station_kill_switch_witness :
    lambda_handler ⟨[("KJWY", stOff)], [("own1", ownOn)], [], 0, true⟩ evErr =
      ⟨.ok { ok := true, skipped := some "station-alerts-disabled" }, [], none⟩ :=
  station_kill_switch _ _ stOff (by decide) (Or.inl (by decide)) (by decide) (by decide)

/-- For a validated status, `should_notify` passes exactly when the
policy is `both` or matches the status. -/
theorem should_notify_iff (st n : String) (h : st = "error" ∨ st = "empty") :
    should_notify st n = true ↔ (n = "both" ∨ n = st) := by
  unfold should_notify
  rw [if_pos h]
  by_cases hb : n = "both"
  · simp [hb]
  · simp only [hb, if_false, reduceIte, decide_eq_true_eq, false_or]
    exact eq_comm

/-- C3: once the station is resolved and enabled, the event is skipped
with reason `notify-policy` exactly when the normalized `notify_on` is
neither `"both"` nor equal to the event's status; moreover
`parse_notify_on` sends every unrecognized value to `"both"`, and in
particular policy `error` rejects an `empty` event while `both` passes
both statuses. -/
theorem notify_policy_filter (env : RouterEnv) (detail : EventDetail) (station : Station)
    (h1 : strUpper detail.station_id ≠ "")
    (h2 : strLower detail.status = "error" ∨ strLower detail.status = "empty")
    (h3 : alistLookup env.stations (strUpper detail.station_id) = some station)
    (h4 : station.alerts_enabled = true) :
    (((lambda_handler env detail).result =
        .ok { ok := true, skipped := some "notify-policy" }) ↔
      ¬ (parse_notify_on station.notify_on = "both" ∨
         parse_notify_on station.notify_on = strLower detail.status))
    ∧ (∀ v : String, strLower v ≠ "error" → strLower v ≠ "empty" → strLower v ≠ "both" →
        parse_notify_on v = "both")
    ∧ should_notify "empty" "error" = false
    ∧ should_notify "error" "both" = true
    ∧ should_notify "empty" "both" = true := by
  refine ⟨?_, ?_, by decide, by decide, by decide⟩
  · rw [← should_notify_iff (strLower detail.status) (parse_notify_on station.notify_on) h2]
    simp only [Bool.not_eq_true]
    constructor
    · intro hres
      by_contra hss
      have hss' : should_notify (strLower detail.status)
          (parse_notify_on station.notify_on) = true := by
        cases hsn : should_notify (strLower detail.status) (parse_notify_on station.notify_on)
        · exact absurd hsn hss
        · rfl
      simp only [lambda_handler] at hres
      rw [if_neg (by push_neg; exact ⟨h1, fun hne => h2.resolve_left hne⟩), h3] at hres
      simp only [h4, Bool.true_eq_false, if_false, reduceIte, hss'] at hres
      by_cases ho : strTrim station.owner_id = ""
      · rw [if_pos ho] at hres; simp at hres
      · rw [if_neg ho] at hres
        rcases how : alistLookup env.owners (strTrim station.owner_id) with _ | owner <;>
          rw [how] at hres <;> dsimp only at hres
        · simp at hres
        · by_cases hoe : owner.alerts_enabled = false
          · rw [if_pos hoe] at hres; simp at hres
          · rw [if_neg hoe] at hres
            by_cases hta : owner.topic_arn = ""
            · rw [if_pos hta] at hres; simp at hres
            · rw [if_neg hta] at hres
              by_cases hic : in_cooldown env.cooldowns env.now (strUpper detail.station_id)
                  (strLower detail.status) station.cooldown_minutes = true
              · rw [if_pos hic] at hres; simp at hres
              · rw [if_neg hic] at hres
                by_cases hp : env.publishOk = true
                · rw [if_pos hp] at hres; simp at hres
                · rw [if_neg hp] at hres; simp at hres
    · intro hss
      simp only [lambda_handler]
      rw [if_neg (by push_neg; exact ⟨h1, fun hne => h2.resolve_left hne⟩), h3]
      simp [h4, hss]
  · intro v hv1 hv2 hv3
    unfold parse_notify_on
    by_cases hv0 : v = ""
    · rw [hv0]; decide
    · simp only [hv0, if_false, reduceIte]
      rw [if_neg]
      push_neg
      exact ⟨hv1, hv2, hv3⟩

/-- Witness for `notify_policy_filter`: policy `error` skips an `empty`
event for an enabled station. -/
theorem notify_policy_filter_witness :
    (lambda_handler ⟨[("KJWY", ⟨true, "error", "own1", 60⟩)], [("own1", ownOn)], [], 0, true⟩
        { evErr with status := "empty" }).result =
      .ok { ok := true, skipped := some "notify-policy" } :=
  (notify_policy_filter _ _ ⟨true, "error", "own1", 60⟩ (by decide) (Or.inr (by decide))
    (by decide) (by decide)).1.mpr (by decide)

/-- Predicate `in_cooldown` holds exactly when a marker exists for the key and its
age is below the window given by the passed (station-configured)
`cooldown_minutes`. -/
theorem in_cooldown_iff (c : List ((String × String) × CooldownMarker)) (now : Int)
    (sid st : String) (cm : Int) :
    in_cooldown c now sid st cm = true ↔
      ∃ m, alistLookup c (sid, st) = some m ∧ now - m.last_notified_epoch < cm * 60 := by
  unfold in_cooldown
  rcases h : alistLookup c (sid, st) with _ | m
  · simp
  · simp

/-- C1: for an event that reaches the cooldown check (valid, station
resolved and enabled, policy passed, owner resolved and enabled with a
topic), the result is `skipped("cooldown")` iff a marker exists for
`(station_id, status)` whose age is under the station's currently
configured `cooldown_minutes` (the marker's own stored
`cooldown_minutes` is unconstrained); otherwise, when the publish
succeeds, the invocation proceeds to dispatch and reports `notified`. -/
theorem cooldown_gate (env : RouterEnv) (detail : EventDetail) (station : Station) (owner : Owner)
    (h1 : strUpper detail.station_id ≠ "")
    (h2 : strLower detail.status = "error" ∨ strLower detail.status = "empty")
    (h3 : alistLookup env.stations (strUpper detail.station_id) = some station)
    (h4 : station.alerts_enabled = true)
    (h5 : should_notify (strLower detail.status) (parse_notify_on station.notify_on) = true)
    (h6 : strTrim station.owner_id ≠ "")
    (h7 : alistLookup env.owners (strTrim station.owner_id) = some owner)
    (h8 : owner.alerts_enabled = true)
    (h9 : owner.topic_arn ≠ "") :
    (((lambda_handler env detail).result = .ok { ok := true, skipped := some "cooldown" }) ↔
      ∃ m, alistLookup env.cooldowns (strUpper detail.station_id, strLower detail.status) =
          some m ∧ env.now - m.last_notified_epoch < station.cooldown_minutes * 60)
    ∧ (in_cooldown env.cooldowns env.now (strUpper detail.station_id) (strLower detail.status)
          station.cooldown_minutes = false →
        env.publishOk = true →
        (lambda_handler env detail).result = .ok (notifiedResult (strUpper detail.station_id) (strTrim station.owner_id))) := by
  have hred : (lambda_handler env detail).result =
      if in_cooldown env.cooldowns env.now (strUpper detail.station_id)
          (strLower detail.status) station.cooldown_minutes = true then
        .ok { ok := true, skipped := some "cooldown" }
      else if env.publishOk = true then
        .ok (notifiedResult (strUpper detail.station_id) (strTrim station.owner_id))
      else .error () := by
    simp only [lambda_handler]
    rw [if_neg (by push_neg; exact ⟨h1, fun hne => h2.resolve_left hne⟩), h3]
    simp only [h4, Bool.true_eq_false, if_false, reduceIte, h5]
    rw [if_neg h6, h7]
    dsimp only
    rw [if_neg (by simp [h8]), if_neg h9]
    by_cases hic : in_cooldown env.cooldowns env.now (strUpper detail.station_id)
        (strLower detail.status) station.cooldown_minutes = true
    · rw [if_pos hic, if_pos hic]
    · rw [if_neg hic, if_neg hic]
      by_cases hp : env.publishOk = true
      · rw [if_pos hp, if_pos hp]; rfl
      · rw [if_neg hp, if_neg hp]
  constructor
  · rw [hred, ← in_cooldown_iff env.cooldowns env.now (strUpper detail.station_id)
      (strLower detail.status) station.cooldown_minutes]
    by_cases hic : in_cooldown env.cooldowns env.now (strUpper detail.station_id)
        (strLower detail.status) station.cooldown_minutes = true
    · simp [hic]
    · rw [if_neg hic]
      by_cases hp : env.publishOk = true
      · simp [hp, hic, notifiedResult]
      · simp [hp, hic]
  · intro hic hp
    rw [hred, if_neg (by simp [hic]), if_pos hp]

/-- Witness for `cooldown_gate`: a marker written at epoch 1000000 (with
a stale stored window of 1 minute) suppresses an identical event 30
minutes later because the station's current window is 60 minutes. -/
theorem cooldown_gate_witness :
    (lambda_handler ⟨[("KJWY", stOn)], [("own1", ownOn)],
        [(("KJWY", "error"), ⟨1000000, 1⟩)], 1001800, true⟩ evErr).result =
      .ok { ok := true, skipped := some "cooldown" } :=
  (cooldown_gate _ _ stOn ownOn (by decide) (Or.inl (by decide)) (by decide) (by decide)
    (by decide) (by decide) (by decide) (by decide) (by decide)).1.mpr
    ⟨⟨1000000, 1⟩, rfl, by decide⟩

/-- Exhaustive shape analysis of one Router invocation: either it skips
(with a reason from the fixed set, cooldown table untouched, nothing
published, and a cooldown skip implies a marker exists for the event's
key), or the publish fails and the error propagates with the table
untouched, or the publish succeeds and the marker for the event's key
is upserted. -/
theorem handler_shape (env : RouterEnv) (detail : EventDetail) :
    (∃ reason, reason ∈ skipReasons ∧
      lambda_handler env detail =
        ⟨.ok { ok := true, skipped := some reason }, env.cooldowns, none⟩ ∧
      (reason = "cooldown" →
        ∃ m, alistLookup env.cooldowns
          (strUpper detail.station_id, strLower detail.status) = some m))
    ∨ (env.publishOk = false ∧
        lambda_handler env detail = ⟨.error (), env.cooldowns, none⟩)
    ∨ (env.publishOk = true ∧ ∃ station : Station, ∃ pub : Published,
        lambda_handler env detail =
          ⟨.ok (notifiedResult (strUpper detail.station_id) (strTrim station.owner_id)),
           update_cooldown env.cooldowns env.now (strUpper detail.station_id)
             (strLower detail.status) station.cooldown_minutes, some pub⟩) := by
  generalize hF : lambda_handler env detail = F
  simp only [lambda_handler] at hF
  by_cases hv : strUpper detail.station_id = "" ∨
      (strLower detail.status ≠ "error" ∧ strLower detail.status ≠ "empty")
  · rw [if_pos hv] at hF
    exact Or.inl ⟨"invalid-event", by decide, hF.symm, fun hc => absurd hc (by decide)⟩
  · rw [if_neg hv] at hF
    rcases hs : alistLookup env.stations (strUpper detail.station_id) with _ | station <;>
      rw [hs] at hF <;> dsimp only at hF
    · exact Or.inl ⟨"station-not-found", by decide, hF.symm, fun hc => absurd hc (by decide)⟩
    · by_cases h4 : station.alerts_enabled = false
      · rw [if_pos h4] at hF
        exact Or.inl ⟨"station-alerts-disabled", by decide, hF.symm,
          fun hc => absurd hc (by decide)⟩
      · rw [if_neg h4] at hF
        by_cases h5 : should_notify (strLower detail.status)
            (parse_notify_on station.notify_on) = false
        · rw [if_pos h5] at hF
          exact Or.inl ⟨"notify-policy", by decide, hF.symm, fun hc => absurd hc (by decide)⟩
        · rw [if_neg h5] at hF
          by_cases h6 : strTrim station.owner_id = ""
          · rw [if_pos h6] at hF
            exact Or.inl ⟨"no-owner", by decide, hF.symm, fun hc => absurd hc (by decide)⟩
          · rw [if_neg h6] at hF
            rcases h7 : alistLookup env.owners (strTrim station.owner_id) with _ | owner <;>
              rw [h7] at hF <;> dsimp only at hF
            · exact Or.inl ⟨"owner-not-found", by decide, hF.symm,
                fun hc => absurd hc (by decide)⟩
            · by_cases h8 : owner.alerts_enabled = false
              · rw [if_pos h8] at hF
                exact Or.inl ⟨"owner-alerts-disabled", by decide, hF.symm,
                  fun hc => absurd hc (by decide)⟩
              · rw [if_neg h8] at hF
                by_cases h9 : owner.topic_arn = ""
                · rw [if_pos h9] at hF
                  exact Or.inl ⟨"no-owner-topic", by decide, hF.symm,
                    fun hc => absurd hc (by decide)⟩
                · rw [if_neg h9] at hF
                  by_cases hic : in_cooldown env.cooldowns env.now
                      (strUpper detail.station_id) (strLower detail.status)
                      station.cooldown_minutes = true
                  · rw [if_pos hic] at hF
                    obtain ⟨m, hm, -⟩ := (in_cooldown_iff env.cooldowns env.now
                      (strUpper detail.station_id) (strLower detail.status)
                      station.cooldown_minutes).mp hic
                    exact Or.inl ⟨"cooldown", by decide, hF.symm, fun _ => ⟨m, hm⟩⟩
                  · rw [if_neg hic] at hF
                    by_cases hp : env.publishOk = true
                    · rw [if_pos hp] at hF
                      exact Or.inr (Or.inr ⟨hp, station, _, hF.symm⟩)
                    · rw [if_neg hp] at hF
                      exact Or.inr (Or.inl ⟨Bool.not_eq_true _ ▸ hp, hF.symm⟩)

/-- C6: a cooldown skip can only come from a marker stored under the
event's own `(station_id, status)` key: if no marker exists for that
key — in particular when the only marker for the station is for the
other outcome-class — the result is never `skipped("cooldown")`. -/
theorem cooldown_key_isolation (env : RouterEnv) (detail : EventDetail)
    (h : alistLookup env.cooldowns
      (strUpper detail.station_id, strLower detail.status) = none) :
    (lambda_handler env detail).result ≠ .ok { ok := true, skipped := some "cooldown" } := by
  intro hres
  rcases handler_shape env detail with ⟨reason, -, heq, hcd⟩ | ⟨-, heq⟩ |
    ⟨-, station, pub, heq⟩
  · rw [heq] at hres
    simp only [Except.ok.injEq, RouterResult.mk.injEq, Option.some.injEq] at hres
    obtain ⟨m, hm⟩ := hcd hres.2.2.2.2
    rw [h] at hm
    exact Option.noConfusion hm
  · rw [heq] at hres
    exact Except.noConfusion hres
  · rw [heq] at hres
    simp [notifiedResult] at hres

/-- Witness for `cooldown_key_isolation`: a fresh marker for
`("KJWY","error")` does not suppress an `empty` event for `KJWY`. -/
theorem cooldown_key_isolation_witness :
    (lambda_handler ⟨[("KJWY", stOn)], [("own1", ownOn)],
        [(("KJWY", "error"), ⟨1001799, 60⟩)], 1001800, true⟩
        { evErr with status := "empty" }).result ≠
      .ok { ok := true, skipped := some "cooldown" } :=
  cooldown_key_isolation _ _ rfl

/-- C2: the cooldown marker is upserted only when the dispatch
succeeded: any change to the cooldown table implies `publishOk` and a
`notified` result; when the publish would fail, the table is unchanged
and nothing is published, and an invocation that reaches the dispatch
step propagates the error (`Except.error ()`) with the table unchanged. -/
theorem record_only_after_dispatch (env : RouterEnv) (detail : EventDetail) :
    ((lambda_handler env detail).cooldowns ≠ env.cooldowns →
      env.publishOk = true ∧ ∃ station : Station,
        (lambda_handler env detail).result =
          .ok (notifiedResult (strUpper detail.station_id) (strTrim station.owner_id)))
    ∧ (env.publishOk = false →
        (lambda_handler env detail).cooldowns = env.cooldowns ∧
        (lambda_handler env detail).published = none)
    ∧ (∀ station owner, env.publishOk = false →
        strUpper detail.station_id ≠ "" →
        (strLower detail.status = "error" ∨ strLower detail.status = "empty") →
        alistLookup env.stations (strUpper detail.station_id) = some station →
        station.alerts_enabled = true →
        should_notify (strLower detail.status) (parse_notify_on station.notify_on) = true →
        strTrim station.owner_id ≠ "" →
        alistLookup env.owners (strTrim station.owner_id) = some owner →
        owner.alerts_enabled = true →
        owner.topic_arn ≠ "" →
        in_cooldown env.cooldowns env.now (strUpper detail.station_id)
          (strLower detail.status) station.cooldown_minutes = false →
        lambda_handler env detail = ⟨.error (), env.cooldowns, none⟩) := by
  refine ⟨?_, ?_, ?_⟩
  · rcases handler_shape env detail with ⟨reason, -, heq, -⟩ | ⟨-, heq⟩ |
      ⟨hp, station, pub, heq⟩
    · intro hne; rw [heq] at hne; exact absurd rfl hne
    · intro hne; rw [heq] at hne; exact absurd rfl hne
    · intro _; exact ⟨hp, station, by rw [heq]⟩
  · intro hpf
    rcases handler_shape env detail with ⟨reason, -, heq, -⟩ | ⟨-, heq⟩ |
      ⟨hp, station, pub, heq⟩
    · rw [heq]; exact ⟨rfl, rfl⟩
    · rw [heq]; exact ⟨rfl, rfl⟩
    · rw [hpf] at hp; exact Bool.noConfusion hp
  · intro station owner hpf hv1 hv2 hst hen hpol hoid hown hoen htop hic
    simp only [lambda_handler]
    rw [if_neg (by push_neg; exact ⟨hv1, fun hne => hv2.resolve_left hne⟩), hst]
    simp only [hen, Bool.true_eq_false, if_false, reduceIte, hpol]
    rw [if_neg hoid, hown]
    dsimp only
    rw [if_neg (by simp [hoen]), if_neg htop, if_neg (by simp [hic]),
      if_neg (by simp [hpf])]

/-- Witness for `record_only_after_dispatch`: with a failing transport
and an otherwise fully-routable event, the invocation errors out and
the cooldown table is unchanged. -/
theorem record_only_after_dispatch_witness :
    (lambda_handler ⟨[("KJWY", stOn)], [("own1", ownOn)], [], 1000, false⟩ evErr).cooldowns
        = [] ∧
      lambda_handler ⟨[("KJWY", stOn)], [("own1", ownOn)], [], 1000, false⟩ evErr =
        ⟨.error (), [], none⟩ :=
  ⟨((record_only_after_dispatch _ _).2.1 rfl).1,
   (record_only_after_dispatch _ _).2.2 stOn ownOn rfl (by decide) (Or.inl (by decide))
     (by decide) (by decide) (by decide) (by decide) (by decide) (by decide) (by decide) rfl⟩

/-- C4 counterexample: a non-fatal (skipped) invocation returns a
record whose `notified` field is absent, refuting the claim that every
non-fatal result carries a boolean `notified` field. -/
theorem result_contract_counterexample :
    ((lambda_handler ⟨[], [], [], 0, true⟩ { evErr with status := "ok" }).result =
      .ok { ok := true, skipped := some "invalid-event" }) ∧
    RouterResult.notified { ok := true, skipped := some "invalid-event" } = none :=
  ⟨rfl, rfl⟩

/-- C4 (amended): every non-fatal invocation returns a record with
`ok: true` that is either a skip carrying a reason from the fixed set
(and no `notified` field) or a dispatch success carrying
`notified: true` with `station_id` and `owner_id`. -/
theorem result_contract (env : RouterEnv) (detail : EventDetail) (r : RouterResult)
    (h : (lambda_handler env detail).result = .ok r) :
    r.ok = true ∧
    ((∃ reason, reason ∈ skipReasons ∧ r = { ok := true, skipped := some reason }) ∨
      (∃ sid oid, r = notifiedResult sid oid)) := by
  rcases handler_shape env detail with ⟨reason, hmem, heq, -⟩ | ⟨-, heq⟩ |
    ⟨-, station, pub, heq⟩
  · rw [heq] at h
    simp only [Except.ok.injEq] at h
    subst h
    exact ⟨rfl, Or.inl ⟨reason, hmem, rfl⟩⟩
  · rw [heq] at h
    exact Except.noConfusion h
  · rw [heq] at h
    simp only [Except.ok.injEq] at h
    subst h
    exact ⟨rfl, Or.inr ⟨_, _, rfl⟩⟩

/-- Witness for `result_contract`, at the concrete invalid-event skip. -/
theorem result_contract_witness :
    ({ ok := true, skipped := some "invalid-event" } : RouterResult).ok = true ∧
    ((∃ reason, reason ∈ skipReasons ∧
        ({ ok := true, skipped := some "invalid-event" } : RouterResult) =
          { ok := true, skipped := some reason }) ∨
      (∃ sid oid, ({ ok := true, skipped := some "invalid-event" } : RouterResult) =
        notifiedResult sid oid)) :=
  result_contract ⟨[], [], [], 0, true⟩ { evErr with status := "ok" } _ rfl

/-- C9: the Router's decision ignores the denormalized policy snapshot
carried in the event: two events that agree on `station_id`, `status`,
`checked_at_utc`, `source_url` and `error_message` produce the same
full outcome (result, cooldown table, publication) in every
environment, whatever their snapshot fields contain. -/
theorem snapshot_independence (env : RouterEnv) (e1 e2 : EventDetail)
    (h1 : e1.station_id = e2.station_id) (h2 : e1.status = e2.status)
    (h3 : e1.checked_at_utc = e2.checked_at_utc) (h4 : e1.source_url = e2.source_url)
    (h5 : e1.error_message = e2.error_message) :
    lambda_handler env e1 = lambda_handler env e2 := by
  simp only [lambda_handler, h1, h2, h3, h4, h5]

/-- Witness for `snapshot_independence`: flipping every snapshot field
(owner, policy, window, kill switch) leaves the outcome unchanged. -/
theorem snapshot_independence_witness :
    lambda_handler ⟨[("KJWY", stOn)], [("own1", ownOn)], [], 1000, true⟩
        { evErr with owner_id := "evil", notify_on := "error", cooldown_minutes := 0, alerts_enabled := false } =
      lambda_handler ⟨[("KJWY", stOn)], [("own1", ownOn)], [], 1000, true⟩ evErr :=
  snapshot_independence _ _ _ rfl rfl rfl rfl rfl

/-- C10: the Router is case-insensitive in its event inputs: replacing
`station_id` and `status` by strings with the same upper-, resp.
lower-case folding yields the identical full outcome, because the
handler upper-cases `station_id` and lower-cases `status` before any
validation or lookup. -/
theorem case_insensitive_inputs (env : RouterEnv) (e : EventDetail) (sid st : String)
    (hsid : strUpper sid = strUpper e.station_id)
    (hst : strLower st = strLower e.status) :
    lambda_handler env { e with station_id := sid, status := st } = lambda_handler env e := by
  simp only [lambda_handler]
  rw [hsid, hst]

/-- Witness for `case_insensitive_inputs`: mixed-case `KjWy`/`ErRoR`
behaves exactly as `kjwy`/`error`. -/
theorem case_insensitive_inputs_witness :
    lambda_handler ⟨[("KJWY", stOn)], [("own1", ownOn)], [], 1000, true⟩
        { evErr with station_id := "KjWy", status := "ErRoR" } =
      lambda_handler ⟨[("KJWY", stOn)], [("own1", ownOn)], [], 1000, true⟩ evErr :=
  case_insensitive_inputs _ evErr "KjWy" "ErRoR" (by decide) (by decide)

/-! ### Theorems about the Collector's error-batch classification -/

/-- Looking up any member of `xs` in the all-`"error"` status map built
by the Collector's failure branch gives `"error"`. -/
theorem alistLookup_const_error (xs : List String) (k : String) (h : k ∈ xs) :
    alistLookup (xs.map (fun s => (s, "error"))) k = some "error" := by
  induction xs with
  | nil => cases h
  | cons x xs ih =>
    simp only [List.map_cons, alistLookup]
    by_cases hx : x = k
    · rw [if_pos hx]
    · rw [if_neg hx]
      rcases List.mem_cons.mp h with he | hm
      · exact absurd he.symm hx
      · exact ih hm

/-- If every config's station id maps to `"error"` in the status map,
`station_alert_events` emits exactly one `error` payload per config. -/
theorem station_alert_events_of_error (cfgs : List StationCfg) (checked url err : String)
    (sbs : List (String × String))
    (h : ∀ cfg ∈ cfgs, alistLookup sbs cfg.station_id = some "error") :
    station_alert_events cfgs checked url sbs err = cfgs.map (errorEvent checked url err) := by
  induction cfgs with
  | nil => rfl
  | cons c cs ih =>
    have hc := h c (List.mem_cons_self c cs)
    simp only [station_alert_events, List.filterMap_cons, List.map_cons, hc,
      Option.getD_some, String.reduceEq, if_false, reduceIte]
    have ih' := ih (fun cfg hm => h cfg (List.mem_cons_of_mem c hm))
    simp only [station_alert_events] at ih'
    rw [ih']
    rfl

/-- C8: when the whole-batch fetch or parse fails, the Collector emits
exactly one alert-candidate per configured station, in configuration
order, each classified `error` and carrying the shared error message —
and this happens for either value of the alert-on-empty gate. -/
theorem error_batch_classification (cfgs : List StationCfg) (alert_on_empty : Bool)
    (checked url err : String) :
    collector_published_events cfgs alert_on_empty checked url (.error err) =
      cfgs.map (errorEvent checked url err) := by
  simp only [collector_published_events]
  apply station_alert_events_of_error
  intro cfg hmem
  exact alistLookup_const_error _ _ (List.mem_map.mpr ⟨cfg, hmem, rfl⟩)

end MetarMonitor
